import Mathlib

/-!
Verification of the unit-price extraction, scoring and price-history logic of the
SmartAmazon backend (src/backend/app/unit_calculator.py, scoring.py,
services/price_history.py).

The Python code is shallowly embedded: Decimal and float arithmetic is modelled by
exact rationals, Python None by Option, and the regular expressions of
UnitCalculator.PATTERNS by hand-written matchers over lists of characters that
reproduce the search order of re.search (leftmost position first, alternatives in
written order, greedy quantifiers).  For the specific pattern shapes in the source
the greedy choices are deterministic: every quantifier is followed by a token that
cannot extend it, so no backtracking case is lost.
-/

/-- Characters matched by the regex class backslash-d (ASCII digits). -/
def isDigitChar (c : Char) : Bool := c.isDigit

/-- Characters matched by the regex class backslash-s (whitespace). -/
def isSpaceChar (c : Char) : Bool :=
  c = ' ' ∨ c = '\t' ∨ c = '\n' ∨ c = '\r' ∨ c = '\x0b' ∨ c = '\x0c'

/-- Characters matched by the regex class backslash-w (ASCII approximation). -/
def isWordChar (c : Char) : Bool := c.isAlpha ∨ c.isDigit ∨ c = '_'

/-- The str.lower method (ASCII case folding), implemented structurally over
the character list so that the kernel can evaluate it. -/
def pyLower (s : String) : String := String.mk (s.data.map Char.toLower)

/-- The str.strip method: removes leading and trailing whitespace. -/
def pyStrip (s : String) : String :=
  String.mk (((s.data.dropWhile isSpaceChar).reverse.dropWhile isSpaceChar).reverse)

/-- A word boundary holds after a word character when the rest of the
input does not continue with a word character. -/
def wordBoundary : List Char → Bool
  | [] => true
  | c :: _ => ¬ isWordChar c

/-- Matches a literal character sequence at the start of the input and
returns the rest, like the plain-text part of a regex. -/
def matchLit : List Char → List Char → Option (List Char)
  | [], s => some s
  | c :: cs, d :: ds => if d = c then matchLit cs ds else none
  | _ :: _, [] => none

/-- Matches the number part of every pattern, the regex
digits+ followed by an optional dot and digits+ (both greedy).
Returns the matched text and the rest of the input. -/
def matchNumber (s : List Char) : Option (List Char × List Char) :=
  let p := s.span isDigitChar
  if p.1.isEmpty then none
  else
    match p.2 with
    | '.' :: r2 =>
      let q := r2.span isDigitChar
      if q.1.isEmpty then some (p.1, p.2)
      else some (p.1 ++ '.' :: q.1, q.2)
    | _ => some (p.1, p.2)

/-- Matches the separator regex between number and unit:
spaces*, an optional hyphen, spaces*.  It always succeeds. -/
def matchSep (s : List Char) : List Char :=
  let r1 := s.dropWhile isSpaceChar
  let r2 := match r1 with
    | '-' :: t => t
    | _ => r1
  r2.dropWhile isSpaceChar

/-- A unit-token matcher returns the captured text and the rest of the input. -/
abbrev UnitTok := List Char → Option (List Char × List Char)

/-- Matcher for a literal unit token such as oz or lb. -/
def litUnit (lit : String) : UnitTok :=
  fun s => (matchLit lit.data s).map (fun r => (lit.data, r))

/-- Matcher for the alternative fl dot-optional spaces* oz of the
fluid-ounce pattern. -/
def matchFlOz : UnitTok := fun s =>
  match matchLit ['f', 'l'] s with
  | none => none
  | some r1 =>
    let dotPart : List Char × List Char :=
      match r1 with
      | '.' :: t => (['.'], t)
      | _ => ([], r1)
    let spPart := dotPart.2.span isSpaceChar
    match matchLit ['o', 'z'] spPart.2 with
    | none => none
    | some r4 => some ('f' :: 'l' :: (dotPart.1 ++ spPart.1 ++ ['o', 'z']), r4)

/-- Matcher for the alternatives fluid spaces+ ounce and fluid spaces+ ounces
of the fluid-ounce pattern; the tail argument is ounce or ounces. -/
def matchFluidWord (tail : List Char) : UnitTok := fun s =>
  match matchLit ("fluid").data s with
  | none => none
  | some r1 =>
    let spPart := r1.span isSpaceChar
    if spPart.1.isEmpty then none
    else
      match matchLit tail spPart.2 with
      | none => none
      | some r3 => some (("fluid").data ++ spPart.1 ++ tail, r3)

/-- Tries the unit alternatives of a group in written order; each candidate
must be followed by a word boundary, as in the source patterns. -/
def tryUnits : List UnitTok → List Char → Option (List Char)
  | [], _ => none
  | m :: ms, s =>
    match m s with
    | some (cap, r) => if wordBoundary r then some cap else tryUnits ms s
    | none => tryUnits ms s

/-- Tries unit alternatives without a trailing word boundary (the combined
pattern has none). -/
def tryUnitsNB : List UnitTok → List Char → Option (List Char)
  | [], _ => none
  | m :: ms, s =>
    match m s with
    | some (cap, _) => some cap
    | none => tryUnitsNB ms s

/-- Anchored matcher for the two-group weight and volume patterns:
number, separator, unit alternative, word boundary.  The groups list mirrors
the tuple returned by match.groups in the source. -/
def matchWeightVolAt (units : List UnitTok) (s : List Char) :
    Option (List (Option String)) :=
  match matchNumber s with
  | none => none
  | some (num, r1) =>
    match tryUnits units (matchSep r1) with
    | some cap => some [some (String.mk num), some (String.mk cap)]
    | none => none

/-- Anchored matcher for the one-group count patterns
(number, separator, literal pack or count or ct, word boundary). -/
def matchCountAt (lit : String) (s : List Char) : Option (List (Option String)) :=
  match matchNumber s with
  | none => none
  | some (num, r1) =>
    match matchLit lit.data (matchSep r1) with
    | none => none
    | some r3 => if wordBoundary r3 then some [some (String.mk num)] else none

/-- Anchored matcher for the piece pattern.  Because of alternation precedence
the source regex is (number separator piece) OR (pieces with boundary); the
first alternative has no trailing boundary, the second captures nothing. -/
def matchPieceAt (s : List Char) : Option (List (Option String)) :=
  let alt1 : Option (List (Option String)) :=
    match matchNumber s with
    | none => none
    | some (num, r1) =>
      match matchLit ("piece").data (matchSep r1) with
      | some _ => some [some (String.mk num)]
      | none => none
  match alt1 with
  | some g => some g
  | none =>
    match matchLit ("pieces").data s with
    | some r => if wordBoundary r then some [none] else none
    | none => none

/-- Anchored matcher for the three-group combined pattern
digits+, spaces*, x, spaces*, number, spaces*, unit (no trailing boundary). -/
def matchCombinedAt (s : List Char) : Option (List (Option String)) :=
  let p := s.span isDigitChar
  if p.1.isEmpty then none
  else
    match p.2.dropWhile isSpaceChar with
    | c :: r3 =>
      if c = 'x' ∨ c = '×' then
        match matchNumber (r3.dropWhile isSpaceChar) with
        | none => none
        | some (n2, r5) =>
          match tryUnitsNB
              [litUnit ("oz"), litUnit ("lb"), litUnit ("g"), litUnit ("ml"), matchFlOz]
              (r5.dropWhile isSpaceChar) with
          | some cap =>
            some [some (String.mk p.1), some (String.mk n2), some (String.mk cap)]
          | none => none
      else none
    | [] => none

/-- Scans the input from the left and applies the anchored matcher at every
position, like re.search. -/
def searchPat (m : List Char → Option (List (Option String))) :
    List Char → Option (List (Option String))
  | [] => m []
  | c :: rest =>
    match m (c :: rest) with
    | some g => some g
    | none => searchPat m rest

/-- The ordered pattern list UnitCalculator.PATTERNS: weight, volume, count,
then the combined multiplicative pattern, each as a search function. -/
def unitPatterns : List (List Char → Option (List (Option String))) :=
  [ matchWeightVolAt [litUnit ("oz"), litUnit ("ounce"), litUnit ("ounces")]
  , matchWeightVolAt [litUnit ("lb"), litUnit ("lbs"), litUnit ("pound"), litUnit ("pounds")]
  , matchWeightVolAt [litUnit ("g"), litUnit ("gram"), litUnit ("grams")]
  , matchWeightVolAt [litUnit ("kg"), litUnit ("kilogram"), litUnit ("kilograms")]
  , matchWeightVolAt
      [matchFlOz, matchFluidWord ("ounce").data, matchFluidWord ("ounces").data]
  , matchWeightVolAt [litUnit ("ml"), litUnit ("milliliter"), litUnit ("milliliters")]
  , matchWeightVolAt [litUnit ("l"), litUnit ("liter"), litUnit ("liters")]
  , matchWeightVolAt [litUnit ("gal"), litUnit ("gallon"), litUnit ("gallons")]
  , matchCountAt ("pack")
  , matchCountAt ("count")
  , matchCountAt ("ct")
  , matchPieceAt
  , matchCombinedAt ]

/-- Numeric value of a digit sequence. -/
def digitsVal (l : List Char) : ℕ :=
  l.foldl (fun a c => 10 * a + (c.toNat - ('0').toNat)) 0

/-- Splits a captured number at its decimal point: integer digits and
fractional digits (empty when there is no point). -/
def splitFrac : List Char → List Char × List Char
  | [] => ([], [])
  | c :: t =>
    if c = '.' then ([], t)
    else
      let r := splitFrac t
      (c :: r.1, r.2)

/-- Value of the float(...) conversion applied to a captured number,
digits with an optional fractional part, as an exact rational. -/
def parseNum (s : String) : ℚ :=
  if (splitFrac s.data).2.isEmpty then (digitsVal (splitFrac s.data).1 : ℚ)
  else
    (digitsVal (splitFrac s.data).1 : ℚ) +
      (digitsVal (splitFrac s.data).2 : ℚ) / (10 : ℚ) ^ (splitFrac s.data).2.length

/-- The str.isdigit test used on the first group of the combined pattern. -/
def isDigitStr (s : String) : Bool := ¬ s.data.isEmpty ∧ s.data.all isDigitChar

/-- Handles one successful regex match exactly as the loop body of
extract_unit_from_title does: a three-group match whose first group is all
digits is the combined pattern (count times quantity), a match with at least
two groups is a standard pattern, and a one-group match (the count and piece
patterns) satisfies neither condition, so the loop falls through to the next
pattern without returning. -/
def handleMatch : List (Option String) → Option (ℚ × String)
  | [some g0, some g1, some g2] =>
    if isDigitStr g0 then some (parseNum g0 * parseNum g1, pyStrip g2)
    else some (parseNum g0, pyStrip g1)
  | [some g0, some g1] => some (parseNum g0, pyStrip g1)
  | _ => none

/-- The pattern loop of extract_unit_from_title at the string level: the
first pattern whose match has at least two groups returns those groups (the
loop body returns exactly for matches of three groups — the combined branch
or, failing its digit test, the standard branch — and of two groups); a
one-group match falls through to the next pattern. -/
def scanPatternsRaw : List (List Char → Option (List (Option String))) → List Char →
    Option (List (Option String))
  | [], _ => none
  | p :: ps, t =>
    match searchPat p t with
    | some gs => if 2 ≤ gs.length then some gs else scanPatternsRaw ps t
    | none => scanPatternsRaw ps t

namespace UnitCalculator

/-- UnitCalculator.WEIGHT_CONVERSIONS: factors to ounces. -/
def WEIGHT_CONVERSIONS : List (String × ℚ) :=
  [ ("oz", 1), ("ounce", 1), ("ounces", 1)
  , ("lb", 16), ("lbs", 16), ("pound", 16), ("pounds", 16)
  , ("g", 0.0353), ("gram", 0.0353), ("grams", 0.0353)
  , ("kg", 35.274), ("kilogram", 35.274), ("kilograms", 35.274) ]

/-- UnitCalculator.VOLUME_CONVERSIONS: factors to fluid ounces. -/
def VOLUME_CONVERSIONS : List (String × ℚ) :=
  [ ("fl oz", 1), ("fl. oz", 1), ("fluid ounce", 1), ("fluid ounces", 1)
  , ("ml", 0.0338), ("milliliter", 0.0338), ("milliliters", 0.0338)
  , ("l", 33.814), ("liter", 33.814), ("liters", 33.814)
  , ("gal", 128), ("gallon", 128), ("gallons", 128)
  , ("qt", 32), ("quart", 32), ("quarts", 32)
  , ("pt", 16), ("pint", 16), ("pints", 16) ]

/-- UnitCalculator.extract_unit_from_title: lower-cases the title and tries
the ordered patterns, returning the first quantity-unit pair any pattern
yields (None, None being modelled by none). -/
def extract_unit_from_title (title : String) : Option (ℚ × String) :=
  if title = "" then none
  else (scanPatternsRaw unitPatterns (pyLower title).data).bind handleMatch

/-- UnitCalculator.normalize_to_standard_unit: converts a quantity to ounces,
fluid ounces or count via the conversion tables; falsy quantity or unit and
unknown units give none. -/
def normalize_to_standard_unit (quantity : ℚ) (unit : String) :
    Option (ℚ × String) :=
  if quantity = 0 ∨ unit = "" then none
  else
    let unit_lower := pyStrip (pyLower unit)
    match WEIGHT_CONVERSIONS.lookup unit_lower with
    | some factor => some (quantity * factor, "oz")
    | none =>
      match VOLUME_CONVERSIONS.lookup unit_lower with
      | some factor => some (quantity * factor, "fl oz")
      | none =>
        if unit_lower ∈ [("pack" : String), "count", "ct", "piece", "pieces"] then
          some (quantity, "count")
        else none

end UnitCalculator

/-- Truncation toward zero, the behavior of the Python int() conversion on
floats. -/
def pyInt (q : ℚ) : ℤ := if q < 0 then ⌈q⌉ else ⌊q⌋

/-- Rounds a rational to the nearest integer with ties going to the even
integer, the rounding used by the Python round builtin (and by round on
Decimal under the default context, ROUND_HALF_EVEN). -/
def roundHalfEvenInt (x : ℚ) : ℤ :=
  if x - (⌊x⌋ : ℚ) < 1 / 2 then ⌊x⌋
  else if 1 / 2 < x - (⌊x⌋ : ℚ) then ⌊x⌋ + 1
  else if ⌊x⌋ % 2 = 0 then ⌊x⌋ else ⌊x⌋ + 1

/-- Rounds a rational to a given power-of-ten scale with ties to even:
round(q, 4) is modelled by roundHalfEvenTo 10000 q. -/
def roundHalfEvenTo (scale : ℚ) (q : ℚ) : ℚ :=
  (roundHalfEvenInt (q * scale) : ℚ) / scale

/-- Correctly rounded conversion of an exact rational to an IEEE-754 binary64
value (viewed as the exact rational it denotes), for values in the normal
range: the 53-bit significand is obtained by scaling into the binade given by
Int.log 2 and rounding to nearest with ties to even, which is the rounding of
float(Decimal(...)) and of double arithmetic in CPython.  Subnormal underflow
and overflow never arise at the magnitudes the dedup logic handles. -/
def fl64 (q : ℚ) : ℚ :=
  if q = 0 then 0
  else if q < 0 then
    -((roundHalfEvenInt (-q / 2 ^ (Int.log 2 (-q) - 52)) : ℚ) *
      2 ^ (Int.log 2 (-q) - 52))
  else
    (roundHalfEvenInt (q / 2 ^ (Int.log 2 q - 52)) : ℚ) *
      2 ^ (Int.log 2 q - 52)

namespace UnitCalculator

/-- UnitCalculator.calculate_unit_price: guards on falsy price, quantity and
unit, normalizes, and divides, rounding the Decimal quotient to four decimal
places with the round builtin (banker's rounding).  The Decimal arithmetic is
exact at these magnitudes, so the quotient is modelled exactly. -/
def calculate_unit_price (price : ℚ) (quantity : ℚ) (unit : String) : Option ℚ :=
  if price = 0 ∨ quantity = 0 ∨ unit = "" then none
  else
    match normalize_to_standard_unit quantity unit with
    | none => none
    | some (normalized_qty, _standard_unit) =>
      if normalized_qty = 0 then none
      else some (roundHalfEvenTo 10000 (price / normalized_qty))

/-- UnitCalculator.get_unit_type: the canonical unit-type label, one of
oz, fl oz and count, or none for falsy or unknown units. -/
def get_unit_type (unit : String) : Option String :=
  if unit = "" then none
  else
    let unit_lower := pyStrip (pyLower unit)
    if (WEIGHT_CONVERSIONS.lookup unit_lower).isSome then some "oz"
    else if (VOLUME_CONVERSIONS.lookup unit_lower).isSome then some "fl oz"
    else if unit_lower ∈ [("pack" : String), "count", "ct", "piece", "pieces"] then
      some "count"
    else none

end UnitCalculator

/-- Module-level helper extract_and_calculate_unit_price: chains extraction,
unit-price calculation and the unit-type label, returning the triple
(unit_price, unit_type, quantity) with None components on failure. -/
def extract_and_calculate_unit_price (title : String) (price : ℚ) :
    Option ℚ × Option String × Option ℚ :=
  match UnitCalculator.extract_unit_from_title title with
  | none => (none, none, none)
  | some (quantity, unit) =>
    if quantity = 0 ∨ unit = "" then (none, none, none)
    else
      ( UnitCalculator.calculate_unit_price price quantity unit
      , UnitCalculator.get_unit_type unit
      , some quantity )

/-- The UnitType enumeration of the backward-compatibility layer. -/
inductive UnitType
  | WEIGHT
  | VOLUME
  | COUNT
  | UNKNOWN
deriving DecidableEq

/-- The unit-type classification shared by the compatibility entry points
extract_unit_info and calculate_from_title: the canonical label returned by
get_unit_type is compared against the strings weight, volume and count. -/
def classify_type_str (type_str : Option String) : UnitType :=
  match type_str with
  | some t =>
    if t = "weight" then UnitType.WEIGHT
    else if t = "volume" then UnitType.VOLUME
    else if t = "count" then UnitType.COUNT
    else UnitType.UNKNOWN
  | none => UnitType.UNKNOWN

namespace UnitPriceCalculator

/-- UnitPriceCalculator.extract_unit_info: extraction plus the unit-type
classification; a falsy unit leaves the unit type at the UNKNOWN default. -/
def extract_unit_info (title : String) : Option ℚ × Option String × UnitType :=
  match UnitCalculator.extract_unit_from_title title with
  | none => (none, none, UnitType.UNKNOWN)
  | some (quantity, unit) =>
    let unit_type :=
      if unit ≠ "" then classify_type_str (UnitCalculator.get_unit_type unit)
      else UnitType.UNKNOWN
    (some quantity, some unit, unit_type)

/-- UnitPriceCalculator.calculate_unit_price, the compatibility wrapper: it
alone rejects negative prices before delegating to
UnitCalculator.calculate_unit_price. -/
def calculate_unit_price (price : ℚ) (quantity : ℚ) (unit : String) : Option ℚ :=
  if price < 0 then none
  else UnitCalculator.calculate_unit_price price quantity unit

/-- Result dictionary of UnitPriceCalculator.calculate_from_title. -/
structure TitleCalcResult where
  unit_price : Option ℚ
  quantity : Option ℚ
  unit : Option String
  unit_type : Option UnitType
deriving DecidableEq

/-- UnitPriceCalculator.calculate_from_title: extraction, normalization, the
unit-type classification of the normalized (or raw) unit, and the unit price
of the normalized quantity and unit. -/
def calculate_from_title (title : String) (price : ℚ) : TitleCalcResult :=
  match UnitCalculator.extract_unit_from_title title with
  | none => ⟨none, none, none, none⟩
  | some (quantity, unit) =>
    if quantity = 0 ∨ unit = "" then ⟨none, none, none, none⟩
    else
      let norm := UnitCalculator.normalize_to_standard_unit quantity unit
      let normalized_qty : Option ℚ := norm.map (·.1)
      let normalized_unit : Option String := norm.map (·.2)
      let type_str := UnitCalculator.get_unit_type (normalized_unit.getD unit)
      let unit_type := classify_type_str type_str
      let up := UnitCalculator.calculate_unit_price price
        (normalized_qty.getD quantity) (normalized_unit.getD unit)
      ⟨up, some (normalized_qty.getD quantity), some (normalized_unit.getD unit),
        some unit_type⟩

end UnitPriceCalculator

/-- Truthiness of an optional numeric value in Python: None and zero are
falsy. -/
def optTruthy (x : Option ℚ) : Bool :=
  match x with
  | none => false
  | some v => v != 0

/-- Sum of a list of rationals. -/
def listSum (l : List ℚ) : ℚ := l.foldl (· + ·) 0

/-- Minimum of a list of rationals (only used on nonempty lists). -/
def minList : List ℚ → ℚ
  | [] => 0
  | x :: xs => xs.foldl min x

/-- Maximum of a list of rationals (only used on nonempty lists). -/
def maxList : List ℚ → ℚ
  | [] => 0
  | x :: xs => xs.foldl max x

namespace ProductScorer

/-- ProductScorer.calculate_hidden_gem_score.  The real-valued logarithm
math.log10 is kept abstract as a parameter; every claim settled below fixes
the only value it needs (log10 1 = 0) by hypothesis.

In the source the line that should read
  if search_position > 20:
was swallowed into the comment preceding it
  (... get bonusif search_position > 20:  # Page 3+),
so the two position-bonus statements sit at the indentation of the
  if review_count > 0:
block: the position bonus is added whenever review_count > 0, with no guard
on search_position, and min 30 ((search_position - 20) * 2) is negative for
positions below 20.  The embedding reproduces this faithfully. -/
def calculate_hidden_gem_score (log10 : ℕ → ℚ)
    (rating : Option ℚ) (review_count : ℕ) (search_position : ℤ)
    (unit_price : Option ℚ) (category_median_unit_price : Option ℚ)
    (is_sponsored : Bool) (sponsored_frequency : ℚ) : ℤ :=
  let score : ℚ := 0
  let score := score +
    (if optTruthy rating ∧ rating.getD 0 ≥ 4.5 then 30
     else if optTruthy rating ∧ rating.getD 0 ≥ 4.0 then 20
     else if optTruthy rating ∧ rating.getD 0 ≥ 3.5 then 10
     else 0)
  let score :=
    if review_count > 0 then
      let review_score := min 20 (log10 review_count * 5)
      let score := score + review_score
      let position_bonus := min 30 (((search_position : ℚ) - 20) * 2)
      score + position_bonus
    else score
  let score := score +
    (match unit_price, category_median_unit_price with
     | some up, some med =>
       if up ≠ 0 ∧ med ≠ 0 ∧ med > 0 then
         let discount := (med - up) / med * 100
         if discount > 0 then min 30 discount else 0
       else 0
     | _, _ => 0)
  let score := score +
    (if is_sponsored = false ∧ sponsored_frequency < 0.1 then 20
     else if is_sponsored = false then 10
     else 0)
  min 100 (pyInt score)

/-- ProductScorer.calculate_deal_quality_score, with math.log10 abstract as
in calculate_hidden_gem_score. -/
def calculate_deal_quality_score (log10 : ℕ → ℚ)
    (unit_price : Option ℚ) (category_median_unit_price : Option ℚ)
    (discount_pct : Option ℚ) (rating : Option ℚ)
    (review_count : ℕ) (is_prime : Bool) : ℤ :=
  let score : ℚ := 0
  let score := score +
    (match unit_price, category_median_unit_price with
     | some up, some med =>
       if up ≠ 0 ∧ med ≠ 0 ∧ med > 0 then
         let price_div_median := up / med
         if price_div_median ≤ 0.7 then 40
         else if price_div_median ≤ 0.8 then 35
         else if price_div_median ≤ 0.9 then 30
         else if price_div_median ≤ 1.0 then 25
         else max 0 (25 - (price_div_median - 1.0) * 50)
       else 0
     | _, _ => 0)
  let score := score +
    (if optTruthy discount_pct then min 30 (discount_pct.getD 0 * 0.6) else 0)
  let score := score +
    (if optTruthy rating then rating.getD 0 / 5.0 * 20 else 0)
  let score := score +
    (if review_count > 0 then min 10 (log10 review_count * 2.5) else 0)
  let score := score + (if is_prime then 5 else 0)
  min 100 (pyInt score)

/-- ProductScorer.calculate_price_performance_score.  Timestamps are
rationals (in days); now is passed explicitly in place of datetime.now().
The division by avg_price in the above-average penalty raises
ZeroDivisionError when avg_price = 0, and the surrounding try block then
returns the neutral 50; that path is the explicit avg_price = 0 branch. -/
def calculate_price_performance_score (now : ℚ) (current_price : ℚ)
    (price_history : List (ℚ × ℚ)) (days : ℚ) : ℤ :=
  if price_history = [] then 50
  else
    let cutoff_date := now - days
    let recent_prices := (price_history.filter (fun pd => pd.2 ≥ cutoff_date)).map (·.1)
    if recent_prices = [] then 50
    else
      let current := current_price
      let min_price := minList recent_prices
      let max_price := maxList recent_prices
      let avg_price := listSum recent_prices / (recent_prices.length : ℚ)
      if max_price = min_price then 100
      else
        let position := (current - min_price) / (max_price - min_price)
        let score : ℤ := pyInt ((1 - position) * 100)
        let score := if current ≤ min_price * 1.02 then min 100 (score + 10) else score
        if current > avg_price then
          if avg_price = 0 then 50
          else max 0 (min 100 (score - pyInt (min 20 ((current - avg_price) / avg_price * 50))))
        else max 0 (min 100 score)

/-- Verdict dictionary of ProductScorer.is_true_discount.  The presentational
message strings (Python f-strings) are not modelled. -/
structure DiscountVerdict where
  is_legitimate : Bool
  confidence : String
  real_discount_pct : Option ℚ
  inflated_by_pct : Option ℚ
deriving DecidableEq

/-- ProductScorer.is_true_discount.  The two divisions of the source raise
ZeroDivisionError exactly when max_historical = 0 (fake-MSRP branch) or
avg_price_90d = 0 (discount-vs-average branch); the except clause then
returns the fail-open low-confidence verdict, modelled by the explicit
zero tests. -/
def is_true_discount (current_price : ℚ) (list_price : ℚ)
    (price_history : List (ℚ × ℚ)) : DiscountVerdict :=
  match price_history with
  | [] => ⟨true, "low", none, none⟩
  | _ :: _ =>
    let historical_prices := price_history.map (·.1)
    let max_historical := maxList historical_prices
    let avg_price_90d := listSum historical_prices / (historical_prices.length : ℚ)
    if list_price > max_historical * 1.1 then
      if max_historical = 0 then ⟨true, "low", none, none⟩
      else
        ⟨false, "high",
          some ((current_price / max_historical - 1) * 100),
          some ((list_price / max_historical - 1) * 100)⟩
    else
      if avg_price_90d = 0 then ⟨true, "low", none, none⟩
      else
        let real_discount := (avg_price_90d - current_price) / avg_price_90d * 100
        if real_discount > 15 then ⟨true, "high", some real_discount, none⟩
        else ⟨true, "medium", some real_discount, none⟩

end ProductScorer

/-- A row of the price_history table as far as the dedup and best-price logic
reads it: the price and the recording timestamp.  Timestamps are rationals
measured in days (so the 24-hour window of the source is the constant 1).
The remaining columns (unit_price and the flags) are never read by the logic
under verification and are omitted. -/
structure PricePoint where
  price : ℚ
  recorded_at : ℚ
deriving DecidableEq

namespace PriceHistoryService

/-- PriceHistoryService.record_price, as a function of the ordered history of
the product (ascending recorded_at, so the last element is the latest record)
and the current time.  Returns the new history and the returned record.  The
source compares binary doubles, abs(float(last.price) - float(price)) > 0.01,
where the literal 0.01 is itself a double: both prices are converted with
fl64, their difference is rounded again with fl64 (double subtraction is
correctly rounded), and the threshold is fl64 (1/100).  A new point is
skipped exactly when that comparison fails and less than one day has
elapsed; the skip returns the existing last record unchanged. -/
def record_price (history : List PricePoint) (price : ℚ) (now : ℚ) :
    List PricePoint × PricePoint :=
  match history.getLast? with
  | none => (history ++ [⟨price, now⟩], ⟨price, now⟩)
  | some last_record =>
    let time_diff := now - last_record.recorded_at
    if ¬ (|fl64 (fl64 last_record.price - fl64 price)| > fl64 (1 / 100)) ∧
        time_diff < 1 then
      (history, last_record)
    else
      (history ++ [⟨price, now⟩], ⟨price, now⟩)

/-- The recommendation conditional expression of get_best_price_time, exactly
as written in the source: note that a savings value of zero is falsy, so both
the Buy-now test and the Wait test fail on it. -/
def recommendationOf (days_ago : ℤ) (savings : Option ℚ) : String :=
  if days_ago < 7 ∧ optTruthy savings ∧ savings.getD 0 < 1 then "Buy now!"
  else if optTruthy savings ∧ savings.getD 0 > 5 then "Wait for better price"
  else "Good time to buy"

/-- Result dictionary of get_best_price_time in the data case. -/
structure BestPriceInfo where
  best_price : ℚ
  days_ago : ℤ
  savings_from_current : Option ℚ
  recommendation : String
deriving DecidableEq

/-- PriceHistoryService.get_best_price_time over the ordered history
(ascending recorded_at).  The lowest-price query is modelled as the earliest
record among those of minimal price within the window (SQL leaves the tie
order unspecified); the current record is the latest record, without window
filtering, as in the source.  An empty window returns none (the source
returns a dictionary of None values without a recommendation key).  The
reported savings is rounded to two decimals and replaced by None when zero
or absent, as in round(savings, 2) if savings else None. -/
def get_best_price_time (history : List PricePoint) (now : ℚ) (days : ℚ) :
    Option BestPriceInfo :=
  let cutoff_date := now - days
  let windowed := history.filter (fun p => p.recorded_at ≥ cutoff_date)
  match windowed with
  | [] => none
  | w :: ws =>
    let lowest := ws.foldl (fun b p => if p.price < b.price then p else b) w
    let savings : Option ℚ := (history.getLast?).map (fun c => c.price - lowest.price)
    let days_ago : ℤ := ⌊now - lowest.recorded_at⌋
    some
      ⟨lowest.price, days_ago,
        (if optTruthy savings then some (roundHalfEvenTo 100 (savings.getD 0)) else none),
        recommendationOf days_ago savings⟩

end PriceHistoryService

/-! ## Helper lemmas -/

theorem optTruthy_some_iff (v : ℚ) : optTruthy (some v) = true ↔ v ≠ 0 := by
  simp [optTruthy]

theorem abs_roundHalfEvenInt_sub_le (x : ℚ) : |(roundHalfEvenInt x : ℚ) - x| ≤ 1 / 2 := by
  have h0 : (⌊x⌋ : ℚ) ≤ x := Int.floor_le x
  have h1 : x < (⌊x⌋ : ℚ) + 1 := Int.lt_floor_add_one x
  rw [roundHalfEvenInt]
  split_ifs with c1 c2 c3 <;> rw [abs_le] <;> constructor <;> push_cast <;> linarith

theorem roundHalfEvenTo_den (q : ℚ) : (roundHalfEvenTo 10000 q * 10000).den = 1 := by
  rw [roundHalfEvenTo, div_mul_cancel₀ _ (by norm_num : (10000 : ℚ) ≠ 0)]
  exact Rat.den_intCast _

theorem abs_roundHalfEvenTo_sub_le (q : ℚ) :
    |roundHalfEvenTo 10000 q - q| ≤ 1 / 20000 := by
  have h := abs_roundHalfEvenInt_sub_le (q * 10000)
  rw [roundHalfEvenTo]
  have h4 : (roundHalfEvenInt (q * 10000) : ℚ) / 10000 - q =
      ((roundHalfEvenInt (q * 10000) : ℚ) - q * 10000) / 10000 := by ring
  rw [h4, abs_div, abs_of_pos (show (0 : ℚ) < 10000 by norm_num)]
  have h5 : |(roundHalfEvenInt (q * 10000) : ℚ) - q * 10000| / 10000 ≤ (1 / 2) / 10000 :=
    (div_le_div_iff_of_pos_right (by norm_num)).mpr h
  linarith

theorem normalize_some_nonzero (quantity : ℚ) (unit : String) (nq : ℚ) (su : String)
    (h : UnitCalculator.normalize_to_standard_unit quantity unit = some (nq, su)) :
    quantity ≠ 0 ∧ unit ≠ "" := by
  constructor <;> intro he <;>
    rw [UnitCalculator.normalize_to_standard_unit] at h <;> simp [he] at h

theorem get_unit_type_values (u : String) :
    UnitCalculator.get_unit_type u = none ∨ UnitCalculator.get_unit_type u = some "oz" ∨
    UnitCalculator.get_unit_type u = some "fl oz" ∨
    UnitCalculator.get_unit_type u = some "count" := by
  simp only [UnitCalculator.get_unit_type]
  split_ifs <;> simp

/-! ## Claims -/

theorem parseNum_int_eval (s : String) (l : List Char) (n : ℕ)
    (h1 : splitFrac s.data = (l, [])) (h2 : digitsVal l = n) :
    parseNum s = (n : ℚ) := by
  simp only [parseNum, h1, h2, List.isEmpty_nil, if_true]

theorem parseNum_5 : parseNum "5" = 5 := by
  rw [parseNum_int_eval "5" ['5'] 5 (by decide) (by decide)]
  norm_num

theorem parseNum_12 : parseNum "12" = 12 := by
  rw [parseNum_int_eval "12" ['1', '2'] 12 (by decide) (by decide)]
  norm_num

theorem parseNum_16 : parseNum "16" = 16 := by
  rw [parseNum_int_eval "16" ['1', '6'] 16 (by decide) (by decide)]
  norm_num

theorem extract_eval (title : String) (gs : List (Option String))
    (ht : ¬ title = "")
    (hs : scanPatternsRaw unitPatterns (pyLower title).data = some gs) :
    UnitCalculator.extract_unit_from_title title = handleMatch gs := by
  simp only [UnitCalculator.extract_unit_from_title]
  rw [if_neg ht, hs]
  rfl

theorem normalize_weight_eval (q : ℚ) (u key : String) (f : ℚ)
    (hq : ¬ q = 0) (hu : ¬ u = "") (hk : pyStrip (pyLower u) = key)
    (hl : List.lookup key UnitCalculator.WEIGHT_CONVERSIONS = some f) :
    UnitCalculator.normalize_to_standard_unit q u = some (q * f, "oz") := by
  simp only [UnitCalculator.normalize_to_standard_unit, hk]
  rw [if_neg (by push_neg; exact ⟨hq, hu⟩), hl]

theorem normalize_volume_eval (q : ℚ) (u key : String) (f : ℚ)
    (hq : ¬ q = 0) (hu : ¬ u = "") (hk : pyStrip (pyLower u) = key)
    (hw : List.lookup key UnitCalculator.WEIGHT_CONVERSIONS = none)
    (hl : List.lookup key UnitCalculator.VOLUME_CONVERSIONS = some f) :
    UnitCalculator.normalize_to_standard_unit q u = some (q * f, "fl oz") := by
  simp only [UnitCalculator.normalize_to_standard_unit, hk]
  rw [if_neg (by push_neg; exact ⟨hq, hu⟩), hw, hl]

theorem normalize_count_eval (q : ℚ) (u key : String)
    (hq : ¬ q = 0) (hu : ¬ u = "") (hk : pyStrip (pyLower u) = key)
    (hw : List.lookup key UnitCalculator.WEIGHT_CONVERSIONS = none)
    (hv : List.lookup key UnitCalculator.VOLUME_CONVERSIONS = none)
    (hc : key ∈ [("pack" : String), "count", "ct", "piece", "pieces"]) :
    UnitCalculator.normalize_to_standard_unit q u = some (q, "count") := by
  simp only [UnitCalculator.normalize_to_standard_unit, hk]
  rw [if_neg (by push_neg; exact ⟨hq, hu⟩), hw, hv, if_pos hc]

theorem calculate_eval (price q : ℚ) (u : String) (nq : ℚ) (su : String)
    (hp : ¬ price = 0) (hq : ¬ q = 0) (hu : ¬ u = "")
    (hn : UnitCalculator.normalize_to_standard_unit q u = some (nq, su))
    (hnq : ¬ nq = 0) :
    UnitCalculator.calculate_unit_price price q u =
      some (roundHalfEvenTo 10000 (price / nq)) := by
  simp only [UnitCalculator.calculate_unit_price]
  rw [if_neg (by push_neg; exact ⟨hp, hq, hu⟩), hn]
  dsimp only
  rw [if_neg hnq]

theorem roundHalfEvenInt_of_lt (x : ℚ) (h : x - (⌊x⌋ : ℚ) < 1 / 2) :
    roundHalfEvenInt x = ⌊x⌋ := by
  rw [roundHalfEvenInt, if_pos h]

theorem roundHalfEvenInt_of_gt (x : ℚ) (h : 1 / 2 < x - (⌊x⌋ : ℚ)) :
    roundHalfEvenInt x = ⌊x⌋ + 1 := by
  rw [roundHalfEvenInt, if_neg (by linarith), if_pos h]

theorem roundHalfEvenInt_tie_even (x : ℚ) (h : x - (⌊x⌋ : ℚ) = 1 / 2)
    (he : ⌊x⌋ % 2 = 0) : roundHalfEvenInt x = ⌊x⌋ := by
  rw [roundHalfEvenInt, if_neg (by linarith), if_neg (by linarith), if_pos he]

theorem roundHalfEvenInt_tie_odd (x : ℚ) (h : x - (⌊x⌋ : ℚ) = 1 / 2)
    (ho : ¬ ⌊x⌋ % 2 = 0) : roundHalfEvenInt x = ⌊x⌋ + 1 := by
  rw [roundHalfEvenInt, if_neg (by linarith), if_neg (by linarith), if_neg ho]

theorem pyInt_intCast (n : ℤ) : pyInt (n : ℚ) = n := by
  rw [pyInt]
  split_ifs <;> simp

theorem roundHalfEven4_int (n : ℤ) : roundHalfEvenTo 10000 ((n : ℤ) : ℚ) = (n : ℚ) := by
  rw [roundHalfEvenTo,
    show ((n : ℚ) * 10000) = (((n * 10000 : ℤ)) : ℚ) from by push_cast; ring,
    roundHalfEvenInt_of_lt _ (by rw [Int.floor_intCast]; norm_num), Int.floor_intCast]
  push_cast
  rw [mul_div_cancel_right₀ _ (by norm_num : (10000 : ℚ) ≠ 0)]

theorem pyInt_val_zero : pyInt 0 = 0 := by
  rw [pyInt, if_neg (by norm_num)]
  exact Int.floor_zero

theorem pyInt_val_neg38 : pyInt (-38) = -38 := by
  rw [pyInt, if_pos (by norm_num),
    show (-38 : ℚ) = ((-38 : ℤ) : ℚ) from by norm_num, Int.ceil_intCast]

/-- Claim C1 (code_bug).  The spec scenario says the title
Vitamin C 1000mg 100 Count with price 19.99 yields quantity 100, unit count
and unit price 0.1999, and that number-count titles extract a count
quantity.  The count patterns of UnitCalculator.PATTERNS capture only one
group (pack, count and ct lie outside the capture), so the loop body of
extract_unit_from_title, which returns only for matches of three or of at
least two groups, falls through on every count match: the pipeline returns
(None, None, None) on the scenario title, and extraction also returns
nothing on the count title and the pack title of the test suite. -/
theorem count_pattern_extraction_returns_nothing :
    extract_and_calculate_unit_price "Vitamin C 1000mg 100 Count" 19.99 =
      (none, none, none) ∧
    UnitCalculator.extract_unit_from_title "Vitamin C 1000mg 100 Count" = none ∧
    UnitCalculator.extract_unit_from_title "Vitamin C 100 Count" = none ∧
    UnitCalculator.extract_unit_from_title "Protein Bars 12 Pack" = none := by
  refine ⟨?_, by decide, by decide, by decide⟩
  simp only [extract_and_calculate_unit_price,
    show UnitCalculator.extract_unit_from_title "Vitamin C 1000mg 100 Count" = none
      from by decide]

/-- Claim C4 counterexample.  On the exemplar combined title 12 x 16 oz,
extraction returns quantity 16 with unit oz, not the multiplied total 192:
the single-unit oz pattern is tried before the combined pattern and matches
the inner 16 oz first. -/
theorem combined_pattern_shadowed_cx :
    UnitCalculator.extract_unit_from_title "12 x 16 oz" = some (16, "oz") ∧
    ((16 : ℚ), ("oz" : String)) ≠ ((192 : ℚ), ("oz" : String)) := by
  constructor
  · rw [extract_eval "12 x 16 oz" [some "16", some "oz"] (by decide) (by decide)]
    show some (parseNum "16", pyStrip "oz") = some (16, "oz")
    rw [parseNum_16, show pyStrip "oz" = "oz" from by decide]
  · intro h
    have : (16 : ℚ) = 192 := congrArg Prod.fst h
    norm_num at this

/-- Claim C4 amended.  Because the combined pattern is the last entry of
PATTERNS, a title matching it whose inner quantity-unit part also matches an
earlier single-unit pattern (the ordinary case, such as 12 x 16 oz) returns
just the inner quantity and unit; the multiplicative total count times
quantity with the matched unit is produced only when no earlier pattern
matches, for example when the unit token is not followed by a word boundary
(12 x 16 ozb). -/
theorem combined_pattern_shadowed_amended :
    UnitCalculator.extract_unit_from_title "12 x 16 oz" = some (16, "oz") ∧
    UnitCalculator.extract_unit_from_title "12 x 16 ozb" = some (192, "oz") := by
  constructor
  · rw [extract_eval "12 x 16 oz" [some "16", some "oz"] (by decide) (by decide)]
    show some (parseNum "16", pyStrip "oz") = some (16, "oz")
    rw [parseNum_16, show pyStrip "oz" = "oz" from by decide]
  · rw [extract_eval "12 x 16 ozb" [some "12", some "16", some "oz"] (by decide)
      (by decide)]
    show (if isDigitStr "12" = true then some (parseNum "12" * parseNum "16", pyStrip "oz")
      else some (parseNum "12", pyStrip "16")) = some (192, "oz")
    rw [if_pos (by decide), parseNum_12, parseNum_16,
      show pyStrip "oz" = "oz" from by decide]
    norm_num

/-- Claim C5 counterexample.  The base UnitCalculator.calculate_unit_price,
through which the live pipeline routes, has no negative-price guard (a
negative Decimal is truthy): price -10 over 5 oz yields -2 rather than
absent. -/
theorem negative_price_guard_cx :
    UnitCalculator.calculate_unit_price (-10) 5 "oz" = some (-2) ∧
    (some (-2 : ℚ)) ≠ (none : Option ℚ) := by
  constructor
  · have hn : UnitCalculator.normalize_to_standard_unit 5 "oz" = some (5, "oz") := by
      have h := normalize_weight_eval 5 "oz" "oz" 1 (by norm_num) (by decide)
        (by decide) (by decide)
      simpa using h
    rw [calculate_eval (-10) 5 "oz" 5 "oz" (by norm_num) (by norm_num) (by decide)
        hn (by norm_num),
      show (-10 : ℚ) / 5 = ((-2 : ℤ) : ℚ) from by norm_num, roundHalfEven4_int]
    norm_num
  · exact Option.some_ne_none _

/-- Claim C5 amended.  Only the backward-compatible wrapper
UnitPriceCalculator.calculate_unit_price rejects negative prices; for every
negative price it returns absent regardless of quantity and unit, while the
underlying single-source function returns a negative unit price (see the
counterexample). -/
theorem negative_price_guard_wrapper_only (price quantity : ℚ) (unit : String)
    (h : price < 0) :
    UnitPriceCalculator.calculate_unit_price price quantity unit = none := by
  rw [UnitPriceCalculator.calculate_unit_price, if_pos h]

/-- Witness for negative_price_guard_wrapper_only at the inputs of the test
suite. -/
theorem negative_price_guard_wrapper_only_witness :
    (-19.99 : ℚ) < 0 ∧
    UnitPriceCalculator.calculate_unit_price (-19.99) 100 "count" = none :=
  ⟨by norm_num, negative_price_guard_wrapper_only (-19.99) 100 "count" (by norm_num)⟩

/-- Evaluation of the two tie cases of the four-decimal rounding used by
calculate_unit_price: 1.23445 rounds to the even 1.2344 and 1.23455 to the
even 1.2346. -/
theorem calc_tie_down :
    UnitCalculator.calculate_unit_price 1.23445 1 "count" = some 1.2344 := by
  have hn : UnitCalculator.normalize_to_standard_unit 1 "count" = some (1, "count") :=
    normalize_count_eval 1 "count" "count" (by norm_num) (by decide) (by decide)
      (by decide) (by decide) (by decide)
  rw [calculate_eval 1.23445 1 "count" 1 "count" (by norm_num) (by norm_num) (by decide)
      hn (by norm_num),
    show (1.23445 : ℚ) / 1 = 1.23445 from by norm_num, roundHalfEvenTo,
    show (1.23445 : ℚ) * 10000 = 12344.5 from by norm_num,
    roundHalfEvenInt_tie_even 12344.5 (by norm_num) (by norm_num)]
  norm_num

theorem calc_tie_up :
    UnitCalculator.calculate_unit_price 1.23455 1 "count" = some 1.2346 := by
  have hn : UnitCalculator.normalize_to_standard_unit 1 "count" = some (1, "count") :=
    normalize_count_eval 1 "count" "count" (by norm_num) (by decide) (by decide)
      (by decide) (by decide) (by decide)
  rw [calculate_eval 1.23455 1 "count" 1 "count" (by norm_num) (by norm_num) (by decide)
      hn (by norm_num),
    show (1.23455 : ℚ) / 1 = 1.23455 from by norm_num, roundHalfEvenTo,
    show (1.23455 : ℚ) * 10000 = 12345.5 from by norm_num,
    roundHalfEvenInt_tie_odd 12345.5 (by norm_num) (by norm_num)]
  norm_num

/-- Claim C6 counterexample.  round on a Decimal uses the default context
rounding ROUND_HALF_EVEN, not half-up: at the tie 1.23445 over one count the
fourth decimal digit rounds to the even digit 4, giving 1.2344 rather than
the half-up 1.2345. -/
theorem round_half_up_cx :
    UnitCalculator.calculate_unit_price 1.23445 1 "count" = some 1.2344 ∧
    (1.2344 : ℚ) ≠ 1.2345 := by
  exact ⟨calc_tie_down, by norm_num⟩

/-- Claim C6 amended.  For every positive price and normalizable quantity
and unit with positive normalized quantity, calculate_unit_price returns the
quotient price over normalized quantity rounded to four decimal places — an
integer multiple of one ten-thousandth within half of one ten-thousandth of
the exact quotient — but ties are rounded half-to-even rather than half-up:
1.23445 rounds down to the even 1.2344 while 1.23455 rounds up to the even
1.2346. -/
theorem unit_price_rounds_half_even :
    (∀ (price quantity : ℚ) (unit : String) (nq : ℚ) (su : String),
      0 < price →
      UnitCalculator.normalize_to_standard_unit quantity unit = some (nq, su) →
      0 < nq →
      ∃ r, UnitCalculator.calculate_unit_price price quantity unit = some r ∧
        (r * 10000).den = 1 ∧ |r - price / nq| ≤ 1 / 20000) ∧
    UnitCalculator.calculate_unit_price 1.23445 1 "count" = some 1.2344 ∧
    UnitCalculator.calculate_unit_price 1.23455 1 "count" = some 1.2346 := by
  refine ⟨?_, calc_tie_down, calc_tie_up⟩
  intro price quantity unit nq su hp hn hnq
  obtain ⟨hq0, hu0⟩ := normalize_some_nonzero quantity unit nq su hn
  refine ⟨roundHalfEvenTo 10000 (price / nq), ?_, roundHalfEvenTo_den _,
    abs_roundHalfEvenTo_sub_le _⟩
  exact calculate_eval price quantity unit nq su (ne_of_gt hp) hq0 hu0 hn
    (ne_of_gt hnq)

/-- Witness for the general part of unit_price_rounds_half_even at price 2
over one count. -/
theorem unit_price_rounds_half_even_witness :
    (0 : ℚ) < 2 ∧
    UnitCalculator.normalize_to_standard_unit 1 "count" = some (1, "count") ∧
    (0 : ℚ) < 1 ∧
    ∃ r, UnitCalculator.calculate_unit_price 2 1 "count" = some r ∧
      (r * 10000).den = 1 ∧ |r - 2 / 1| ≤ 1 / 20000 := by
  have hn : UnitCalculator.normalize_to_standard_unit 1 "count" = some (1, "count") :=
    normalize_count_eval 1 "count" "count" (by norm_num) (by decide) (by decide)
      (by decide) (by decide) (by decide)
  exact ⟨by norm_num, hn, by norm_num,
    unit_price_rounds_half_even.1 2 1 "count" 1 "count" (by norm_num) hn (by norm_num)⟩

set_option maxHeartbeats 2000000 in
/-- Claim C2 (code_bug).  The spec says the buried-but-good component
contributes min 30 ((search_position - 20) * 2) exactly when
search_position > 20 and 0 otherwise, independently of review_count.  In the
source the guard line
  if search_position > 20:
was swallowed into the comment above it, so the bonus statements execute
inside the if review_count > 0 block instead: with review_count = 0 a deeply
buried product (position 30, everything else empty, sponsored) scores 0
where the claim predicts the position component 20, and with
review_count = 1 at position 1 the unguarded bonus min 30 ((1 - 20) * 2)
contributes -38 where the claim predicts 0, making the whole score -38.
The hypothesis log10 1 = 0 fixes the only value of math.log10 used. -/
theorem hidden_gem_position_guard_lost (log10 : ℕ → ℚ) (h : log10 1 = 0) :
    ProductScorer.calculate_hidden_gem_score log10 none 0 30 none none true 0 = 0 ∧
    ProductScorer.calculate_hidden_gem_score log10 none 1 1 none none true 0 = -38 := by
  constructor
  · unfold ProductScorer.calculate_hidden_gem_score
    norm_num [optTruthy, min_def]
    rw [pyInt_val_zero]
    norm_num
  · unfold ProductScorer.calculate_hidden_gem_score
    rw [h]
    norm_num [optTruthy, min_def]
    rw [pyInt_val_neg38]
    norm_num

/-- Witness for hidden_gem_position_guard_lost with the zero logarithm. -/
theorem hidden_gem_position_guard_lost_witness :
    ProductScorer.calculate_hidden_gem_score (fun _ => 0) none 0 30 none none true 0
      = 0 ∧
    ProductScorer.calculate_hidden_gem_score (fun _ => 0) none 1 1 none none true 0
      = -38 :=
  hidden_gem_position_guard_lost (fun _ => 0) rfl

set_option maxHeartbeats 2000000 in
/-- Claim C3 (code_bug).  The spec says all three scores always lie in
[0, 100].  Because the lost search_position guard (see
hidden_gem_position_guard_lost) lets the position term go negative, the
hidden-gem score of a product with one review at search position 1 and no
other data is -38, below the claimed lower bound 0. -/
theorem hidden_gem_score_negative (log10 : ℕ → ℚ) (h : log10 1 = 0) :
    ProductScorer.calculate_hidden_gem_score log10 none 1 1 none none true 0 = -38 ∧
    ProductScorer.calculate_hidden_gem_score log10 none 1 1 none none true 0 < 0 := by
  have hv : ProductScorer.calculate_hidden_gem_score log10 none 1 1 none none true 0
      = -38 := by
    unfold ProductScorer.calculate_hidden_gem_score
    rw [h]
    norm_num [optTruthy, min_def]
    rw [pyInt_val_neg38]
    norm_num
  exact ⟨hv, by rw [hv]; norm_num⟩

/-- Witness for hidden_gem_score_negative with the zero logarithm. -/
theorem hidden_gem_score_negative_witness :
    ProductScorer.calculate_hidden_gem_score (fun _ => 0) none 1 1 none none true 0
      = -38 ∧
    ProductScorer.calculate_hidden_gem_score (fun _ => 0) none 1 1 none none true 0
      < 0 :=
  hidden_gem_score_negative (fun _ => 0) rfl

theorem roundHalfEvenTo_eval (scale q : ℚ) (m : ℤ) (h : q * scale = (m : ℚ)) :
    roundHalfEvenTo scale q = (m : ℚ) / scale := by
  rw [roundHalfEvenTo, h,
    roundHalfEvenInt_of_lt _ (by rw [Int.floor_intCast]; norm_num), Int.floor_intCast]

theorem int_log2_eval (q : ℚ) (e : ℤ) (hq : 0 < q)
    (hle : (2 : ℚ) ^ e ≤ q) (hlt : q < (2 : ℚ) ^ (e + 1)) : Int.log 2 q = e := by
  have h1 : e ≤ Int.log 2 q := by
    rw [← Int.zpow_le_iff_le_log (by norm_num) hq]
    exact_mod_cast hle
  have h2 : Int.log 2 q < e + 1 := by
    rw [← Int.lt_zpow_iff_log_lt (by norm_num) hq]
    exact_mod_cast hlt
  omega

theorem fl64_eval_pos (q : ℚ) (e m : ℤ) (h0 : 0 < q) (he : Int.log 2 q = e)
    (hm : roundHalfEvenInt (q / 2 ^ (e - 52)) = m) :
    fl64 q = (m : ℚ) * 2 ^ (e - 52) := by
  rw [fl64, if_neg (ne_of_gt h0), if_neg (not_lt.mpr h0.le), he, hm]

theorem fl64_eval_neg (q : ℚ) (e m : ℤ) (h0 : q < 0) (he : Int.log 2 (-q) = e)
    (hm : roundHalfEvenInt (-q / 2 ^ (e - 52)) = m) :
    fl64 q = -((m : ℚ) * 2 ^ (e - 52)) := by
  rw [fl64, if_neg (ne_of_lt h0), if_pos h0, he, hm]

theorem fl64_ten : fl64 10 = 10 := by
  have hm : roundHalfEvenInt ((10 : ℚ) / 2 ^ ((3 : ℤ) - 52)) = 5629499534213120 := by
    rw [show (10 : ℚ) / 2 ^ ((3 : ℤ) - 52) = ((5629499534213120 : ℤ) : ℚ) from by
        norm_num,
      roundHalfEvenInt_of_lt _ (by rw [Int.floor_intCast]; norm_num), Int.floor_intCast]
  rw [fl64_eval_pos 10 3 5629499534213120 (by norm_num)
    (int_log2_eval 10 3 (by norm_num) (by norm_num) (by norm_num)) hm]
  norm_num

theorem fl64_twelve : fl64 12 = 12 := by
  have hm : roundHalfEvenInt ((12 : ℚ) / 2 ^ ((3 : ℤ) - 52)) = 6755399441055744 := by
    rw [show (12 : ℚ) / 2 ^ ((3 : ℤ) - 52) = ((6755399441055744 : ℤ) : ℚ) from by
        norm_num,
      roundHalfEvenInt_of_lt _ (by rw [Int.floor_intCast]; norm_num), Int.floor_intCast]
  rw [fl64_eval_pos 12 3 6755399441055744 (by norm_num)
    (int_log2_eval 12 3 (by norm_num) (by norm_num) (by norm_num)) hm]
  norm_num

theorem fl64_ten_oh_one : fl64 10.01 = 5635129033747333 / 2 ^ 49 := by
  have hfl : ⌊(10.01 : ℚ) / 2 ^ ((3 : ℤ) - 52)⌋ = 5635129033747333 := by norm_num
  have hm : roundHalfEvenInt ((10.01 : ℚ) / 2 ^ ((3 : ℤ) - 52)) = 5635129033747333 := by
    rw [roundHalfEvenInt_of_lt _ (by rw [hfl]; norm_num), hfl]
  rw [fl64_eval_pos 10.01 3 5635129033747333 (by norm_num)
    (int_log2_eval 10.01 3 (by norm_num) (by norm_num) (by norm_num)) hm]
  norm_num

theorem fl64_ten_oh_four : fl64 10.04 = 5652017532349972 / 2 ^ 49 := by
  have hfl : ⌊(10.04 : ℚ) / 2 ^ ((3 : ℤ) - 52)⌋ = 5652017532349972 := by norm_num
  have hm : roundHalfEvenInt ((10.04 : ℚ) / 2 ^ ((3 : ℤ) - 52)) = 5652017532349972 := by
    rw [roundHalfEvenInt_of_lt _ (by rw [hfl]; norm_num), hfl]
  rw [fl64_eval_pos 10.04 3 5652017532349972 (by norm_num)
    (int_log2_eval 10.04 3 (by norm_num) (by norm_num) (by norm_num)) hm]
  norm_num

theorem fl64_ten_oh_five : fl64 10.05 = 5657647031884186 / 2 ^ 49 := by
  have hfl : ⌊(10.05 : ℚ) / 2 ^ ((3 : ℤ) - 52)⌋ = 5657647031884185 := by norm_num
  have hm : roundHalfEvenInt ((10.05 : ℚ) / 2 ^ ((3 : ℤ) - 52)) = 5657647031884186 := by
    rw [roundHalfEvenInt_of_gt _ (by rw [hfl]; norm_num), hfl]
    norm_num
  rw [fl64_eval_pos 10.05 3 5657647031884186 (by norm_num)
    (int_log2_eval 10.05 3 (by norm_num) (by norm_num) (by norm_num)) hm]
  norm_num

theorem fl64_cent : fl64 (1 / 100) = 5764607523034235 / 2 ^ 59 := by
  have hfl : ⌊(1 / 100 : ℚ) / 2 ^ ((-7 : ℤ) - 52)⌋ = 5764607523034234 := by norm_num
  have hm : roundHalfEvenInt ((1 / 100 : ℚ) / 2 ^ ((-7 : ℤ) - 52))
      = 5764607523034235 := by
    rw [roundHalfEvenInt_of_gt _ (by rw [hfl]; norm_num), hfl]
    norm_num
  rw [fl64_eval_pos (1 / 100) (-7) 5764607523034235 (by norm_num)
    (int_log2_eval (1 / 100) (-7) (by norm_num) (by norm_num) (by norm_num)) hm]
  norm_num

theorem fl64_neg_two : fl64 (-2) = -2 := by
  have hm : roundHalfEvenInt (-(-2 : ℚ) / 2 ^ ((1 : ℤ) - 52)) = 4503599627370496 := by
    rw [show -(-2 : ℚ) / 2 ^ ((1 : ℤ) - 52) = ((4503599627370496 : ℤ) : ℚ) from by
        norm_num,
      roundHalfEvenInt_of_lt _ (by rw [Int.floor_intCast]; norm_num), Int.floor_intCast]
  rw [fl64_eval_neg (-2) 1 4503599627370496 (by norm_num)
    (int_log2_eval (-(-2 : ℚ)) 1 (by norm_num) (by norm_num) (by norm_num)) hm]
  norm_num

theorem fl64_diff_cent_low :
    fl64 ((10 : ℚ) - 5635129033747333 / 2 ^ 49) = -(5629499534213 / 2 ^ 49) := by
  have hm : roundHalfEvenInt
      (-((10 : ℚ) - 5635129033747333 / 2 ^ 49) / 2 ^ ((-7 : ℤ) - 52))
      = 5764607523034112 := by
    rw [show -((10 : ℚ) - 5635129033747333 / 2 ^ 49) / 2 ^ ((-7 : ℤ) - 52) =
        ((5764607523034112 : ℤ) : ℚ) from by norm_num,
      roundHalfEvenInt_of_lt _ (by rw [Int.floor_intCast]; norm_num), Int.floor_intCast]
  rw [fl64_eval_neg _ (-7) 5764607523034112 (by norm_num)
    (int_log2_eval (-((10 : ℚ) - 5635129033747333 / 2 ^ 49)) (-7) (by norm_num)
      (by norm_num) (by norm_num)) hm]
  norm_num

theorem fl64_diff_cent_high :
    fl64 ((5652017532349972 : ℚ) / 2 ^ 49 - 5657647031884186 / 2 ^ 49) =
      -(5629499534214 / 2 ^ 49) := by
  have hm : roundHalfEvenInt
      (-((5652017532349972 : ℚ) / 2 ^ 49 - 5657647031884186 / 2 ^ 49) /
        2 ^ ((-7 : ℤ) - 52)) = 5764607523035136 := by
    rw [show -((5652017532349972 : ℚ) / 2 ^ 49 - 5657647031884186 / 2 ^ 49) /
          2 ^ ((-7 : ℤ) - 52) = ((5764607523035136 : ℤ) : ℚ) from by norm_num,
      roundHalfEvenInt_of_lt _ (by rw [Int.floor_intCast]; norm_num), Int.floor_intCast]
  rw [fl64_eval_neg _ (-7) 5764607523035136 (by norm_num)
    (int_log2_eval
      (-((5652017532349972 : ℚ) / 2 ^ 49 - 5657647031884186 / 2 ^ 49)) (-7)
      (by norm_num) (by norm_num) (by norm_num)) hm]
  norm_num

/-- In doubles, the one-cent step from 10.00 to 10.01 lands below the 0.01
threshold: float(10.00) - float(10.01) has magnitude about 0.0099999999999998,
smaller than the double 0.01. -/
theorem cent_step_low_skips :
    ¬ (|fl64 (fl64 (10 : ℚ) - fl64 10.01)| > fl64 (1 / 100)) := by
  rw [fl64_ten, fl64_ten_oh_one, fl64_diff_cent_low, fl64_cent, abs_neg,
    abs_of_pos (by norm_num : (0 : ℚ) < 5629499534213 / 2 ^ 49)]
  norm_num

/-- In doubles, the one-cent step from 10.04 to 10.05 lands above the 0.01
threshold: float(10.04) - float(10.05) has magnitude about 0.0100000000000016,
larger than the double 0.01. -/
theorem cent_step_high_appends :
    |fl64 (fl64 (10.04 : ℚ) - fl64 10.05)| > fl64 (1 / 100) := by
  rw [fl64_ten_oh_four, fl64_ten_oh_five, fl64_diff_cent_high, fl64_cent, abs_neg,
    abs_of_pos (by norm_num : (0 : ℚ) < 5629499534214 / 2 ^ 49)]
  norm_num

theorem record_price_skip_eval (history : List PricePoint) (last_record : PricePoint)
    (price now : ℚ) (h : history.getLast? = some last_record)
    (hc : ¬ (|fl64 (fl64 last_record.price - fl64 price)| > fl64 (1 / 100)) ∧
      now - last_record.recorded_at < 1) :
    PriceHistoryService.record_price history price now = (history, last_record) := by
  unfold PriceHistoryService.record_price
  rw [h]
  dsimp only
  rw [if_pos hc]

theorem record_price_append_eval (history : List PricePoint) (last_record : PricePoint)
    (price now : ℚ) (h : history.getLast? = some last_record)
    (hc : |fl64 (fl64 last_record.price - fl64 price)| > fl64 (1 / 100) ∨
      1 ≤ now - last_record.recorded_at) :
    PriceHistoryService.record_price history price now =
      (history ++ [⟨price, now⟩], ⟨price, now⟩) := by
  unfold PriceHistoryService.record_price
  rw [h]
  dsimp only
  rw [if_neg]
  rintro ⟨hna, hb⟩
  rcases hc with h1 | h1
  · exact hna h1
  · linarith

/-- Claim C7 counterexample.  A decimal price difference of exactly one cent
within 24 hours does not necessarily trigger an append: the source compares
doubles, abs(float(last.price) - float(price)) > 0.01, and for the one-cent
step 10.00 to 10.01 the rounded difference falls below the double threshold
0.01, so the observation half a day later is skipped and the existing point
is returned unchanged, contradicting the claim. -/
theorem exact_cent_change_skipped_cx :
    PriceHistoryService.record_price [⟨10, 0⟩] 10.01 0.5 = ([⟨10, 0⟩], ⟨10, 0⟩) ∧
    |(10 : ℚ) - 10.01| = 1 / 100 ∧ (0.5 : ℚ) - 0 < 1 := by
  refine ⟨record_price_skip_eval [⟨10, 0⟩] ⟨10, 0⟩ 10.01 0.5 rfl
      ⟨cent_step_low_skips, show (0.5 : ℚ) - 0 < 1 by norm_num⟩,
    ?_, by norm_num⟩
  rw [show (10 : ℚ) - 10.01 = -(1 / 100) from by norm_num, abs_neg,
    abs_of_pos (by norm_num : (0 : ℚ) < 1 / 100)]

/-- Claim C7 amended.  record_price appends a new point exactly when the
IEEE-double comparison abs(float(last.price) - float(price)) > 0.01 of the
source succeeds or at least 24 hours (one time unit here) have elapsed; a
decimal difference of exactly one cent can fall on either side of that
float threshold depending on the rounding of the two prices — within 24
hours, 10.00 to 10.01 is skipped while 10.04 to 10.05 is appended — and a
skip returns the existing last point unchanged. -/
theorem record_price_dedup_float :
    (∀ (history : List PricePoint) (last_record : PricePoint) (price now : ℚ),
      history.getLast? = some last_record →
      ((¬ (|fl64 (fl64 last_record.price - fl64 price)| > fl64 (1 / 100)) ∧
          now - last_record.recorded_at < 1) →
        PriceHistoryService.record_price history price now = (history, last_record)) ∧
      ((|fl64 (fl64 last_record.price - fl64 price)| > fl64 (1 / 100) ∨
          1 ≤ now - last_record.recorded_at) →
        PriceHistoryService.record_price history price now =
          (history ++ [⟨price, now⟩], ⟨price, now⟩))) ∧
    PriceHistoryService.record_price [⟨10, 0⟩] 10.01 0.5 = ([⟨10, 0⟩], ⟨10, 0⟩) ∧
    PriceHistoryService.record_price [⟨10.04, 0⟩] 10.05 0.5 =
      ([⟨10.04, 0⟩, ⟨10.05, 0.5⟩], ⟨10.05, 0.5⟩) :=
  ⟨fun history last_record price now h =>
    ⟨record_price_skip_eval history last_record price now h,
      record_price_append_eval history last_record price now h⟩,
    record_price_skip_eval [⟨10, 0⟩] ⟨10, 0⟩ 10.01 0.5 rfl
      ⟨cent_step_low_skips, show (0.5 : ℚ) - 0 < 1 by norm_num⟩,
    record_price_append_eval [⟨10.04, 0⟩] ⟨10.04, 0⟩ 10.05 0.5 rfl
      (Or.inl cent_step_high_appends)⟩

/-- Witness for record_price_dedup_float: a two-dollar change half a day
after the last record appends a new point. -/
theorem record_price_dedup_float_witness :
    ([⟨10, 0⟩] : List PricePoint).getLast? = some ⟨10, 0⟩ ∧
    PriceHistoryService.record_price [⟨10, 0⟩] 12 0.5 =
      ([⟨10, 0⟩, ⟨12, 0.5⟩], ⟨12, 0.5⟩) := by
  have habs : |fl64 (fl64 (10 : ℚ) - fl64 12)| > fl64 (1 / 100) := by
    rw [fl64_ten, fl64_twelve, show (10 : ℚ) - 12 = -2 from by norm_num, fl64_neg_two,
      fl64_cent, abs_neg, abs_of_pos (by norm_num : (0 : ℚ) < 2)]
    norm_num
  exact ⟨rfl,
    (record_price_dedup_float.1 [⟨10, 0⟩] ⟨10, 0⟩ 12 0.5 rfl).2 (Or.inl habs)⟩

theorem buy_now_cond_iff (d : ℤ) (s : Option ℚ) :
    (d < 7 ∧ optTruthy s = true ∧ s.getD 0 < 1) ↔
      (d < 7 ∧ ∃ v, s = some v ∧ v ≠ 0 ∧ v < 1) := by
  cases s with
  | none => simp [optTruthy]
  | some v => simp [optTruthy, bne_iff_ne]

theorem wait_cond_iff (s : Option ℚ) :
    (optTruthy s = true ∧ 5 < s.getD 0) ↔ (∃ v, s = some v ∧ v ≠ 0 ∧ 5 < v) := by
  cases s with
  | none => simp [optTruthy]
  | some v => simp [optTruthy, bne_iff_ne]

/-- Claim C8 counterexample.  When the current price equals the best price
in the window the savings value 0.0 is falsy, so the source conditional
skips both the Buy-now and the Wait tests and returns Good time to buy,
although the best price was seen one day ago (fewer than 7) and the current
price is within one dollar of it; the claim predicts Buy now!. -/
theorem zero_savings_not_buy_now_cx :
    PriceHistoryService.get_best_price_time [⟨50, 0⟩] 1 90 =
      some ⟨50, 1, none, "Good time to buy"⟩ ∧
    ("Good time to buy" : String) ≠ "Buy now!" := by
  constructor
  · unfold PriceHistoryService.get_best_price_time
    norm_num [List.filter, List.getLast?, PriceHistoryService.recommendationOf,
      optTruthy]
  · decide

set_option maxHeartbeats 2000000 in
/-- Claim C8 amended.  The recommendation is Buy now! exactly when the best
price was seen fewer than 7 days ago and the savings value is present,
nonzero and below one dollar — a savings of exactly zero (current price
equal to the best) is falsy and yields Good time to buy instead; it is Wait
for better price exactly when the Buy-now condition fails and the savings
value is present, nonzero and above five dollars; and Good time to buy
otherwise.  The concrete runs show all three outcomes of
get_best_price_time. -/
theorem best_price_recommendation_characterized :
    (∀ (d : ℤ) (s : Option ℚ),
      (PriceHistoryService.recommendationOf d s = "Buy now!" ↔
        d < 7 ∧ ∃ v, s = some v ∧ v ≠ 0 ∧ v < 1) ∧
      (PriceHistoryService.recommendationOf d s = "Wait for better price" ↔
        (¬ (d < 7 ∧ ∃ v, s = some v ∧ v ≠ 0 ∧ v < 1) ∧
          ∃ v, s = some v ∧ v ≠ 0 ∧ 5 < v))) ∧
    PriceHistoryService.get_best_price_time [⟨50, 0⟩, ⟨50.5, 6⟩] 6.5 90 =
      some ⟨50, 6, some 0.5, "Buy now!"⟩ ∧
    PriceHistoryService.get_best_price_time [⟨60, 0⟩, ⟨45, 5⟩, ⟨55, 9⟩] 10 90 =
      some ⟨45, 5, some 10, "Wait for better price"⟩ ∧
    PriceHistoryService.get_best_price_time [⟨50, 0⟩] 1 90 =
      some ⟨50, 1, none, "Good time to buy"⟩ := by
  refine ⟨?_, ?_, ?_, ?_⟩
  · intro d s
    unfold PriceHistoryService.recommendationOf
    split_ifs with h1 h2
    · exact ⟨⟨fun _ => (buy_now_cond_iff d s).mp h1, fun _ => rfl⟩,
        iff_of_false (by decide) (fun hc => hc.1 ((buy_now_cond_iff d s).mp h1))⟩
    · exact ⟨iff_of_false (by decide) (fun hc => h1 ((buy_now_cond_iff d s).mpr hc)),
        iff_of_true rfl ⟨fun hc => h1 ((buy_now_cond_iff d s).mpr hc),
          (wait_cond_iff s).mp h2⟩⟩
    · exact ⟨iff_of_false (by decide) (fun hc => h1 ((buy_now_cond_iff d s).mpr hc)),
        iff_of_false (by decide) (fun hc => h2 ((wait_cond_iff s).mpr hc.2))⟩
  · unfold PriceHistoryService.get_best_price_time
    norm_num [List.filter, List.getLast?, List.foldl,
      PriceHistoryService.recommendationOf, optTruthy]
    rw [roundHalfEvenTo_eval 100 (1 / 2) 50 (by norm_num)]
    norm_num
  · unfold PriceHistoryService.get_best_price_time
    norm_num [List.filter, List.getLast?, List.foldl,
      PriceHistoryService.recommendationOf, optTruthy]
    rw [roundHalfEvenTo_eval 100 10 1000 (by norm_num)]
    norm_num
  · unfold PriceHistoryService.get_best_price_time
    norm_num [List.filter, List.getLast?, PriceHistoryService.recommendationOf,
      optTruthy]

/-- Claim C9 (confirmed).  For every pair of prices, is_true_discount with
an empty history returns the benefit-of-the-doubt verdict legitimate with
low confidence, and on a nonempty history the two arithmetic-failure paths
of the source — the division current over max_historical when
max_historical is zero in the inflated-list-price branch, and the division
by avg_price_90d when the average is zero in the discount branch — are
caught and produce the same legitimate, low-confidence verdict instead of
raising. -/
theorem discount_fail_open :
    (∀ (current_price list_price : ℚ),
      ProductScorer.is_true_discount current_price list_price [] =
        ⟨true, "low", none, none⟩) ∧
    (∀ (current_price list_price : ℚ) (price_history : List (ℚ × ℚ)),
      price_history ≠ [] →
      ((list_price > maxList (price_history.map (·.1)) * 1.1 ∧
          maxList (price_history.map (·.1)) = 0) ∨
        (¬ list_price > maxList (price_history.map (·.1)) * 1.1 ∧
          listSum (price_history.map (·.1)) /
            ((price_history.map (·.1)).length : ℚ) = 0)) →
      ProductScorer.is_true_discount current_price list_price price_history =
        ⟨true, "low", none, none⟩) := by
  constructor
  · intro current_price list_price
    rfl
  · intro current_price list_price price_history hne hc
    cases price_history with
    | nil => exact absurd rfl hne
    | cons p rest =>
      simp only [ProductScorer.is_true_discount]
      rcases hc with ⟨hgt, hmax⟩ | ⟨hngt, havg⟩
      · rw [if_pos hgt, if_pos hmax]
      · rw [if_neg hngt, if_pos havg]

/-- Witness for discount_fail_open: equal prices with empty history, and the
zero-average single-entry history that would divide by zero. -/
theorem discount_fail_open_witness :
    ProductScorer.is_true_discount 5 5 [] = ⟨true, "low", none, none⟩ ∧
    (([((0 : ℚ), (0 : ℚ))] : List (ℚ × ℚ)) ≠ []) ∧
    ProductScorer.is_true_discount 0 0 [(0, 0)] = ⟨true, "low", none, none⟩ := by
  refine ⟨discount_fail_open.1 5 5, by simp, ?_⟩
  refine discount_fail_open.2 0 0 [(0, 0)] (by simp) (Or.inr ⟨?_, ?_⟩)
  · show ¬ (0 : ℚ) > maxList [0] * 1.1
    norm_num [maxList]
  · show listSum [(0 : ℚ)] / ((1 : ℕ) : ℚ) = 0
    norm_num [listSum]

/-- Claim C10 (confirmed).  The compatibility entry points classify the
canonical label returned by get_unit_type by comparing it against the
strings weight, volume and count, but get_unit_type returns oz, fl oz or
count: every recognized weight unit and every recognized volume unit is
classified UNKNOWN, and only count units receive a non-UNKNOWN type.  The
concrete runs show extract_unit_info labelling the weight title
Protein Powder 5 lb (asserted WEIGHT by the test suite) and
calculate_from_title labelling the volume title Shampoo 16 fl oz (asserted
VOLUME by the test suite) as UNKNOWN. -/
theorem compat_unit_types_unknown :
    (∀ u : String, UnitCalculator.get_unit_type u = some "oz" →
      classify_type_str (UnitCalculator.get_unit_type u) = UnitType.UNKNOWN) ∧
    (∀ u : String, UnitCalculator.get_unit_type u = some "fl oz" →
      classify_type_str (UnitCalculator.get_unit_type u) = UnitType.UNKNOWN) ∧
    (∀ u : String,
      classify_type_str (UnitCalculator.get_unit_type u) ≠ UnitType.UNKNOWN ↔
        UnitCalculator.get_unit_type u = some "count") ∧
    UnitPriceCalculator.extract_unit_info "Protein Powder 5 lb" =
      (some 5, some "lb", UnitType.UNKNOWN) ∧
    (UnitPriceCalculator.calculate_from_title "Shampoo 16 fl oz" 10).unit_type =
      some UnitType.UNKNOWN := by
  refine ⟨?_, ?_, ?_, ?_, ?_⟩
  · intro u h
    rw [h]
    decide
  · intro u h
    rw [h]
    decide
  · intro u
    rcases get_unit_type_values u with h | h | h | h <;> rw [h] <;> decide
  · have he : UnitCalculator.extract_unit_from_title "Protein Powder 5 lb" =
        some (5, "lb") := by
      rw [extract_eval "Protein Powder 5 lb" [some "5", some "lb"] (by decide)
        (by decide)]
      show some (parseNum "5", pyStrip "lb") = some (5, "lb")
      rw [parseNum_5, show pyStrip "lb" = "lb" from by decide]
    simp only [UnitPriceCalculator.extract_unit_info, he]
    rw [if_pos (by decide : ("lb" : String) ≠ "")]
    rw [show UnitCalculator.get_unit_type "lb" = some "oz" from by decide]
    decide
  · have he : UnitCalculator.extract_unit_from_title "Shampoo 16 fl oz" =
        some (16, "fl oz") := by
      rw [extract_eval "Shampoo 16 fl oz" [some "16", some "fl oz"] (by decide)
        (by decide)]
      show some (parseNum "16", pyStrip "fl oz") = some (16, "fl oz")
      rw [parseNum_16, show pyStrip "fl oz" = "fl oz" from by decide]
    have hn : UnitCalculator.normalize_to_standard_unit 16 "fl oz" =
        some (16, "fl oz") := by
      have h := normalize_volume_eval 16 "fl oz" "fl oz" 1 (by norm_num) (by decide)
        (by decide) (by decide) (by decide)
      simpa using h
    simp only [UnitPriceCalculator.calculate_from_title, he]
    rw [if_neg (by norm_num [show ¬ ("fl oz" : String) = "" from by decide])]
    simp only [hn, Option.map_some', Option.getD_some]
    rw [show UnitCalculator.get_unit_type "fl oz" = some "fl oz" from by decide]
    decide

/-- Witness for compat_unit_types_unknown at the weight unit lb of the test
suite. -/
theorem compat_unit_types_unknown_witness :
    UnitCalculator.get_unit_type "lb" = some "oz" ∧
    classify_type_str (UnitCalculator.get_unit_type "lb") = UnitType.UNKNOWN :=
  ⟨by decide, compat_unit_types_unknown.1 "lb" (by decide)⟩

set_option maxHeartbeats 2000000 in
/-- Supporting result: unlike the hidden-gem score, the price-performance
score is clamped into [0, 100] on every path, including the neutral and
failure paths. -/
theorem price_performance_score_bounds (now current_price : ℚ)
    (price_history : List (ℚ × ℚ)) (days : ℚ) :
    0 ≤ ProductScorer.calculate_price_performance_score now current_price
        price_history days ∧
      ProductScorer.calculate_price_performance_score now current_price
        price_history days ≤ 100 := by
  simp only [ProductScorer.calculate_price_performance_score]
  split_ifs
  all_goals exact ⟨by norm_num, by norm_num⟩

theorem min100_pyInt_bounds (S : ℚ) (hS : 0 ≤ S) :
    0 ≤ min 100 (pyInt S) ∧ min 100 (pyInt S) ≤ 100 := by
  refine ⟨le_min (by norm_num) ?_, min_le_left _ _⟩
  rw [pyInt, if_neg (not_lt.mpr hS)]
  exact Int.floor_nonneg.mpr hS

set_option maxHeartbeats 2000000 in
/-- Supporting result: the deal-quality score lies in [0, 100] for every
valid input (nonnegative logarithm values, rating within the star scale,
nonnegative discount percentage), again in contrast to the hidden-gem
score. -/
theorem deal_quality_score_bounds (log10 : ℕ → ℚ)
    (unit_price category_median_unit_price discount_pct rating : Option ℚ)
    (review_count : ℕ) (is_prime : Bool)
    (hlog : ∀ n : ℕ, 0 < n → 0 ≤ log10 n)
    (hr : ∀ r, rating = some r → 0 ≤ r ∧ r ≤ 5)
    (hd : ∀ d, discount_pct = some d → 0 ≤ d) :
    0 ≤ ProductScorer.calculate_deal_quality_score log10 unit_price
        category_median_unit_price discount_pct rating review_count is_prime ∧
      ProductScorer.calculate_deal_quality_score log10 unit_price
        category_median_unit_price discount_pct rating review_count is_prime
        ≤ 100 := by
  unfold ProductScorer.calculate_deal_quality_score
  apply min100_pyInt_bounds
  refine add_nonneg (add_nonneg (add_nonneg (add_nonneg (add_nonneg le_rfl ?_) ?_)
    ?_) ?_) ?_
  · rcases unit_price with _ | up <;> rcases category_median_unit_price with _ | med <;>
      dsimp only
    · norm_num
    · norm_num
    · norm_num
    · split_ifs <;> norm_num
  · split_ifs with h
    · rcases discount_pct with _ | d
      · simp [optTruthy] at h
      · refine le_min (by norm_num) ?_
        simp only [Option.getD_some]
        exact mul_nonneg (hd d rfl) (by norm_num)
    · exact le_rfl
  · split_ifs with h
    · rcases rating with _ | r
      · simp [optTruthy] at h
      · simp only [Option.getD_some]
        have := (hr r rfl).1
        positivity
    · exact le_rfl
  · split_ifs with h
    · exact le_min (by norm_num) (mul_nonneg (hlog review_count h) (by norm_num))
    · exact le_rfl
  · split_ifs <;> norm_num
